import Mathlib

/-
Verification development for the university-lms backend
(FastAPI + SQLAlchemy + pydantic).

The Python source is embedded shallowly:

  * SQLAlchemy model classes become Lean structures holding the mapped
    columns, together with a list of the mapped attribute names (columns
    plus relationship names).  The SQLAlchemy declarative constructor
    accepts exactly the mapped attribute names as keyword arguments and
    raises TypeError on any other keyword; this name-level check is
    modelled by pyBadKwarg below.
  * pydantic schemas become structures; schema.dict() is modelled by the
    constant list of the schema field names.
  * A service class is modelled by the list of the method names its class
    body defines plus Lean functions for the bodies the claims need; a
    database session is a list of rows passed and returned explicitly.
  * Python attribute lookup on a service class (ServiceClass.method) is
    modelled by routerInvoke: when the name is not defined on the class,
    the call raises AttributeError before anything runs and the store is
    returned unchanged.
-/

namespace UniLMS

/-- Python runtime errors raised by the embedded layer.  The repository
defines no ConflictError, DeadlineExceededError or ExpiredAttemptError
class anywhere (app/core/exceptions.py defines only LMSException and
handlers), so the error type has no such constructors. -/
inductive PyError where
  | attributeError : String → PyError
  | typeError : String → PyError
  deriving DecidableEq, Repr

/-- SQLAlchemy declarative constructor check: the first keyword argument
that is not a mapped attribute of the model makes the constructor raise
TypeError naming that keyword; returns none when all keywords match. -/
def pyBadKwarg (attrs kwargKeys : List String) : Option String :=
  kwargKeys.find? (fun k => !(attrs.contains k))

/-- Attribute lookup plus call on a service class, as a router endpoint
performs it.  methods is the list of method names the class body defines;
impl gives the behaviour of defined methods on the store.  A name that is
not defined raises AttributeError before any method body runs, and the
store comes back unchanged. -/
def routerInvoke {σ ρ : Type} (methods : List String)
    (impl : String → σ → σ × ρ) (name : String) (st : σ) :
    Except PyError ρ × σ :=
  if methods.contains name then
    let res := impl name st
    (Except.ok res.2, res.1)
  else
    (Except.error (PyError.attributeError name), st)

/-- Method names defined by AssignmentSubmissionService
(app/services/assignment_submission_service.py). -/
def assignmentSubmissionServiceMethods : List String :=
  ["get_by_id", "get_by_assignment_id", "get_by_student_id",
   "get_all", "create", "update", "delete"]

/-- Method names defined by QuizAttemptService
(app/services/quiz_attempt_service.py). -/
def quizAttemptServiceMethods : List String :=
  ["get_by_id", "get_by_quiz_id", "get_by_student_id",
   "get_all", "create", "update", "delete"]

/-- Method names defined by QuizService (app/services/quiz_service.py). -/
def quizServiceMethods : List String :=
  ["get_by_id", "get_by_course_offering_id", "get_all",
   "create", "update", "delete"]

/-- Service methods invoked by the assignment-submissions router
(app/api/v1/assignment_submissions.py), in route order. -/
def assignmentSubmissionRouterCalls : List String :=
  ["submit_assignment", "get_student_submission",
   "list_submissions_for_assignment", "get_submission_by_id",
   "add_feedback", "delete_submission"]

/-- Service methods invoked by the quiz-attempts router
(app/api/v1/quiz_attempts.py), in route order. -/
def quizAttemptRouterCalls : List String :=
  ["start_attempt", "get_student_attempts", "list_attempts_for_quiz",
   "get_attempt_by_id", "update_attempt", "delete_attempt"]

/-- Service methods invoked by the quizzes router
(app/api/v1/quizzes.py), in route order. -/
def quizRouterCalls : List String :=
  ["create_quiz", "get_quiz_by_id", "update_quiz", "delete_quiz",
   "list_quizzes_by_section_group"]

/-- Row of the assignment_submissions table
(app/models/assignment_submission.py), holding the mapped columns. -/
structure AssignmentSubmissionRow where
  submission_id : Nat
  assignment_id : Int
  student_id : Int
  file_path : Option String
  file_name : Option String
  content_type : Option String
  digital_content : Option String
  feedback : Option String
  graded_by_id : Option Int
  grade : Option String
  is_final : Bool
  deriving DecidableEq, Repr

/-- Mapped attribute names of the AssignmentSubmission model: columns in
declaration order, then the relationship names.  The timestamp columns
created_at and updated_at are server-managed and carried here only as
names. -/
def assignmentSubmissionModelAttrs : List String :=
  ["submission_id", "assignment_id", "student_id", "file_path",
   "file_name", "content_type", "digital_content", "feedback",
   "graded_by_id", "grade", "is_final", "created_at", "updated_at",
   "assignment", "student", "graded_by"]

/-- Pydantic schema AssignmentSubmissionCreate
(app/schemas/assignment_submission.py).  grade is a float in the schema;
it is carried as an integer-valued score here, which is irrelevant to the
claims because the constructor rejects the keyword filename first. -/
structure AssignmentSubmissionCreate where
  assignment_id : Int
  student_id : Int
  file_path : String
  filename : String
  submitted_at : Option Nat
  grade : Option Int
  feedback : Option String
  deriving DecidableEq, Repr

/-- Field names produced by AssignmentSubmissionCreate.dict(), in schema
declaration order.  Note filename (not file_name) and submitted_at, which
are not mapped attributes of the model. -/
def assignmentSubmissionCreateKeys : List String :=
  ["assignment_id", "student_id", "file_path", "filename",
   "submitted_at", "grade", "feedback"]

/-- Construction of an AssignmentSubmission row from the create schema,
matching keys by name as the SQLAlchemy constructor would.  This branch
is reachable only when every schema key is a mapped attribute; with the
schema as written it never is (the keyword filename is rejected), so the
unmatched schema fields are dropped and the unfilled columns default. -/
def assignmentSubmissionFromCreate (db : List AssignmentSubmissionRow)
    (x : AssignmentSubmissionCreate) : AssignmentSubmissionRow :=
  { submission_id := db.length + 1
    assignment_id := x.assignment_id
    student_id := x.student_id
    file_path := some x.file_path
    file_name := none
    content_type := none
    digital_content := none
    feedback := x.feedback
    graded_by_id := none
    grade := none
    is_final := true }

/-- AssignmentSubmissionService.create: builds the model object from the
schema dict and inserts it.  The SQLAlchemy constructor raises TypeError
on the first schema key that is not a mapped attribute, before the
session is touched; the result pairs the raised error (if any) with the
resulting store. -/
def assignmentSubmissionServiceCreate (db : List AssignmentSubmissionRow)
    (x : AssignmentSubmissionCreate) :
    Option PyError × List AssignmentSubmissionRow :=
  match pyBadKwarg assignmentSubmissionModelAttrs
      assignmentSubmissionCreateKeys with
  | some k => (some (PyError.typeError k), db)
  | none => (none, db ++ [assignmentSubmissionFromCreate db x])

/-- Number of submission rows stored for one (assignment, student) pair. -/
def submissionCountForPair (db : List AssignmentSubmissionRow)
    (aid sid : Int) : Nat :=
  (db.filter (fun r => r.assignment_id == aid && r.student_id == sid)).length

/-- Row of the quiz_attempts table (app/models/quiz_attempt.py). -/
structure QuizAttemptRow where
  attempt_id : Nat
  quiz_id : Int
  student_id : Int
  started_at : Nat
  submitted_at : Option Nat
  total_score : Option Int
  is_submitted : Bool
  is_graded : Bool
  deriving DecidableEq, Repr

/-- Mapped attribute names of the QuizAttempt model: columns in
declaration order, then the relationship names (the model declares no
timestamp audit columns). -/
def quizAttemptModelAttrs : List String :=
  ["attempt_id", "quiz_id", "student_id", "started_at", "submitted_at",
   "total_score", "is_submitted", "is_graded", "quiz", "student",
   "answers"]

/-- Pydantic schema QuizAttemptCreate (app/schemas/quiz_attempt.py). -/
structure QuizAttemptCreate where
  quiz_id : Int
  student_id : Int
  start_time : Option Nat
  end_time : Option Nat
  score : Option Int
  status : Option String
  feedback : Option String
  deriving DecidableEq, Repr

/-- Field names produced by QuizAttemptCreate.dict(), in schema
declaration order.  None of start_time, end_time, score, status or
feedback is a mapped attribute of the QuizAttempt model. -/
def quizAttemptCreateKeys : List String :=
  ["quiz_id", "student_id", "start_time", "end_time", "score",
   "status", "feedback"]

/-- Construction of a QuizAttempt row from the create schema, matching
keys by name; reachable only when every schema key is mapped, which with
the schema as written never happens (start_time is rejected). -/
def quizAttemptFromCreate (db : List QuizAttemptRow)
    (x : QuizAttemptCreate) : QuizAttemptRow :=
  { attempt_id := db.length + 1
    quiz_id := x.quiz_id
    student_id := x.student_id
    started_at := 0
    submitted_at := none
    total_score := none
    is_submitted := false
    is_graded := false }

/-- QuizAttemptService.create: builds the model object from the schema
dict and inserts it; the constructor raises TypeError on the first
unmapped keyword before the session is touched. -/
def quizAttemptServiceCreate (db : List QuizAttemptRow)
    (x : QuizAttemptCreate) : Option PyError × List QuizAttemptRow :=
  match pyBadKwarg quizAttemptModelAttrs quizAttemptCreateKeys with
  | some k => (some (PyError.typeError k), db)
  | none => (none, db ++ [quizAttemptFromCreate db x])

/-- Pydantic schema QuizAttemptUpdate (app/schemas/quiz_attempt.py): all
fields optional; a field left at none is excluded by
dict(exclude_unset=True). -/
structure QuizAttemptUpdate where
  quiz_id : Option Int := none
  student_id : Option Int := none
  start_time : Option Nat := none
  end_time : Option Nat := none
  score : Option Int := none
  status : Option String := none
  feedback : Option String := none
  deriving DecidableEq, Repr

/-- Effect of the update loop of QuizAttemptService.update on a stored
row: setattr on a mapped column changes the row; of the update schema
fields only quiz_id and student_id are mapped columns of QuizAttempt, so
setattr for start_time, end_time, score, status and feedback only
creates transient Python attributes that are never persisted, and every
other column of the row is unchanged. -/
def quizAttemptApplyUpdate (r : QuizAttemptRow) (u : QuizAttemptUpdate) :
    QuizAttemptRow :=
  { r with
    quiz_id := u.quiz_id.getD r.quiz_id
    student_id := u.student_id.getD r.student_id }

/-- QuizAttemptService.update: fetches the first row with the given
attempt id, applies the provided fields, commits, and returns the row;
returns none and the unchanged store when the id is absent. -/
def quizAttemptServiceUpdate (db : List QuizAttemptRow) (id : Nat)
    (u : QuizAttemptUpdate) : Option QuizAttemptRow × List QuizAttemptRow :=
  match db.find? (fun r => r.attempt_id == id) with
  | none => (none, db)
  | some r =>
    let r2 := quizAttemptApplyUpdate r u
    (some r2, db.map (fun s => if s.attempt_id == id then r2 else s))

/-- Row of the grades table (app/models/grade.py). -/
structure GradeRow where
  grade_id : Nat
  student_id : Int
  assignment_id : Option Int
  quiz_id : Option Int
  course_offering_id : Option Int
  grade_value : String
  numeric_score : Option Int
  remarks : Option String
  deriving DecidableEq, Repr

/-- Mapped attribute names of the Grade model: columns in declaration
order, then the relationship names. -/
def gradeModelAttrs : List String :=
  ["grade_id", "student_id", "assignment_id", "quiz_id",
   "course_offering_id", "grade_value", "numeric_score", "remarks",
   "created_at", "updated_at", "student", "assignment", "quiz",
   "course_offering"]

/-- Pydantic schema GradeCreate (app/schemas/grade.py). -/
structure GradeCreate where
  student_id : Int
  course_offering_id : Int
  assignment_id : Option Int
  quiz_id : Option Int
  value : Int
  weight : Option Int
  remarks : Option String
  deriving DecidableEq, Repr

/-- Field names produced by GradeCreate.dict(), in schema declaration
order.  Neither value nor weight is a mapped attribute of the Grade
model (whose columns are grade_value and numeric_score). -/
def gradeCreateKeys : List String :=
  ["student_id", "course_offering_id", "assignment_id", "quiz_id",
   "value", "weight", "remarks"]

/-- Construction of a Grade row from the create schema, matching keys by
name; reachable only when every schema key is mapped, which with the
schema as written never happens (value is rejected). -/
def gradeFromCreate (db : List GradeRow) (x : GradeCreate) : GradeRow :=
  { grade_id := db.length + 1
    student_id := x.student_id
    assignment_id := x.assignment_id
    quiz_id := x.quiz_id
    course_offering_id := some x.course_offering_id
    grade_value := ""
    numeric_score := none
    remarks := x.remarks }

/-- GradeService.create: builds the model object from the schema dict and
inserts it; the constructor raises TypeError on the first unmapped
keyword before the session is touched. -/
def gradeServiceCreate (db : List GradeRow) (x : GradeCreate) :
    Option PyError × List GradeRow :=
  match pyBadKwarg gradeModelAttrs gradeCreateKeys with
  | some k => (some (PyError.typeError k), db)
  | none => (none, db ++ [gradeFromCreate db x])

/-- Number of grade rows stored for a (student, assignment) source pair. -/
def gradeCountForPair (db : List GradeRow) (sid : Int) (aid : Option Int) :
    Nat :=
  (db.filter (fun g => g.student_id == sid && g.assignment_id == aid)).length

/-- Row of the quizzes table (app/models/quiz.py).  The model has no
status, published or visibility column of any kind. -/
structure QuizRow where
  quiz_id : Int
  course_offering_id : Int
  assignment_id : Option Int
  title : String
  description : Option String
  start_date : Option Nat
  end_date : Option Nat
  duration_minutes : Option Int
  total_points : Int
  deriving DecidableEq, Repr

/-- Mapped attribute names of the Quiz model: columns in declaration
order, then the relationship names. -/
def quizModelAttrs : List String :=
  ["quiz_id", "course_offering_id", "assignment_id", "title",
   "description", "start_date", "end_date", "duration_minutes",
   "total_points", "created_at", "updated_at", "course_offering",
   "assignment", "questions", "attempts", "files"]

/-- QuizService.get_by_id: returns the first quiz row with the given id;
the function takes no actor, role or enrollment argument and applies no
visibility filter. -/
def quizServiceGetById (db : List QuizRow) (quiz_id : Int) :
    Option QuizRow :=
  db.find? (fun q => q.quiz_id == quiz_id)

/-- Attempt row that is started but not yet submitted, for the quiz 1 and
student 5 pair: the in-progress state of the claims. -/
def inProgressAttempt : QuizAttemptRow :=
  { attempt_id := 1, quiz_id := 1, student_id := 5, started_at := 0,
    submitted_at := none, total_score := none,
    is_submitted := false, is_graded := false }

/-- Create payload for a second attempt start on the same pair; status
carries the schema default in_progress. -/
def secondStartPayload : QuizAttemptCreate :=
  { quiz_id := 1, student_id := 5, start_time := none, end_time := none,
    score := none, status := some "in_progress", feedback := none }

/-- Update payload a client would send to submit and score an attempt
through the patch endpoint. -/
def submitAttemptPayload : QuizAttemptUpdate :=
  { status := some "completed", score := some 30 }

/-- Grade payload that addFeedback would record for student 5 on
assignment 1. -/
def feedbackGradePayload : GradeCreate :=
  { student_id := 5, course_offering_id := 1, assignment_id := some 1,
    quiz_id := none, value := 87, weight := none, remarks := some "B+" }

/-- Quiz row for the visibility claim; the model has no column that could
record a Draft or Published state, so no quiz is ever publishable. -/
def draftQuiz : QuizRow :=
  { quiz_id := 1, course_offering_id := 1, assignment_id := none,
    title := "Q1", description := none, start_date := none,
    end_date := none, duration_minutes := some 30, total_points := 30 }

/-- Structured HTTP error, as FastAPI HTTPException carries it (status
code and detail message). -/
structure HttpErr where
  status : Nat
  detail : String
  deriving DecidableEq, Repr

/-- Row of the roles table, reduced to the name consulted by the
authorization code. -/
structure RoleRow where
  name : String
  deriving DecidableEq, Repr

/-- Row of the users table (app/models/user.py), reduced to the columns
the authorization code reads: identity, the active flag, and the single
role relationship (role_id is nullable, so the relationship is
optional). -/
structure UserRow where
  user_id : Int
  username : String
  is_active : Bool
  role : Option RoleRow
  deriving DecidableEq, Repr

/-- Python str.lower restricted to ASCII, character by character. -/
def pyLower (s : String) : String :=
  String.mk (s.data.map Char.toLower)

/-- User.is_admin property: true exactly when the role is present and its
lower-cased name is administrator. -/
def userIsAdmin (u : UserRow) : Bool :=
  match u.role with
  | some r => pyLower r.name == "administrator"
  | none => false

/-- The role dependency produced by require_role (app/core/auth.py): the
user role-name set is the singleton of the role name, or empty when the
user has no role; access is granted when any required role is in that
set, otherwise HTTP 403 is raised.  The source interpolates the required
list into the detail message; the constant prefix is kept here. -/
def requireRole (required_roles : List String) (current_user : UserRow) :
    Except HttpErr UserRow :=
  let user_roles : List String :=
    match current_user.role with
    | some r => [r.name]
    | none => []
  if required_roles.any (fun role => user_roles.contains role) then
    Except.ok current_user
  else
    Except.error { status := 403, detail := "User lacks required role(s)" }

/-- Incoming request reduced to the Authorization header, absent or a
character list. -/
structure AuthHttpRequest where
  authorization : Option (List Char)
  deriving DecidableEq, Repr

/-- Characters of the Bearer prefix (with its trailing space) that
get_token_from_header requires. -/
def bearerPrefix : List Char :=
  ['B', 'e', 'a', 'r', 'e', 'r', ' ']

/-- Prefix test on character lists, as str.startswith. -/
def hasPrefixChars : List Char → List Char → Bool
  | [], _ => true
  | _ :: _, [] => false
  | p :: ps, c :: cs => p == c && hasPrefixChars ps cs

/-- Python split call with maxsplit one, index one: everything after the
first space.  The callers below only reach it when the Bearer prefix
(which contains a space) is present, so the empty fallback for a
space-free list is unreachable there. -/
def afterFirstSpace : List Char → List Char
  | [] => []
  | c :: rest => if c = ' ' then rest else afterFirstSpace rest

/-- Error raised for a missing or non-Bearer Authorization header. -/
def headerInvalid : HttpErr :=
  { status := 401, detail := "Authorization header missing or invalid." }

/-- Error raised when the JWT fails to decode. -/
def credentialsInvalid : HttpErr :=
  { status := 401, detail := "Could not validate credentials." }

/-- Error raised for a missing, empty or unparseable sub claim. -/
def tokenPayloadInvalid : HttpErr :=
  { status := 401, detail := "Token payload invalid." }

/-- Error raised when the referenced user is absent or inactive. -/
def userNotActive : HttpErr :=
  { status := 403, detail := "User not active or does not exist." }

/-- get_token_from_header (app/core/auth.py): requires a present,
non-empty header starting with the Bearer prefix, and returns the part
after the first space, else HTTP 401. -/
def getTokenFromHeader (req : AuthHttpRequest) :
    Except HttpErr (List Char) :=
  match req.authorization with
  | none => Except.error headerInvalid
  | some h =>
    if h.isEmpty || !(hasPrefixChars bearerPrefix h) then
      Except.error headerInvalid
    else
      Except.ok (afterFirstSpace h)

/-- Decoded JWT payload reduced to the sub claim the code reads. -/
structure JwtPayload where
  sub : Option String
  deriving DecidableEq, Repr

/-- decode_jwt_token: the jose decode call is an external collaborator,
modelled as a function returning the payload or failing; failure becomes
HTTP 401. -/
def decodeJwtToken (jwtDecode : List Char → Option JwtPayload)
    (token : List Char) : Except HttpErr JwtPayload :=
  match jwtDecode token with
  | some payload => Except.ok payload
  | none => Except.error credentialsInvalid

/-- Pydantic User schema (app/schemas/user.py) as UserService returns it:
the model flag is_active is folded into the string status field by the
before-mode model validator, and the role relationship is flattened to
its name by the role field validator.  The optional profile fields the
authentication code never reads are carried only in the field-name list
below. -/
structure UserSchemaRec where
  user_id : Int
  username : String
  status : Option String
  role : Option String
  deriving DecidableEq, Repr

/-- Field names the pydantic User schema defines, base fields then the
database fields: attribute access on a schema instance resolves exactly
these names.  There is no is_active field — the model validator maps it
into status. -/
def userSchemaFields : List String :=
  ["username", "email", "full_name", "phone", "status",
   "profile_image_path", "role", "user_id", "created_at", "updated_at",
   "last_login"]

/-- Attribute access on a pydantic schema instance: a name the schema
does not define raises AttributeError naming the attribute. -/
def pyAttr (fields : List String) (name : String) : Except String Unit :=
  if fields.contains name then Except.ok () else Except.error name

/-- UserSchema.from_orm: builds the schema from a users-table row,
mapping is_active to the status string and the role relationship to its
name. -/
def userSchemaFromOrm (u : UserRow) : UserSchemaRec :=
  { user_id := u.user_id
    username := u.username
    status := some (if u.is_active then "active" else "inactive")
    role := u.role.map (fun r => r.name) }

/-- UserService.get_by_id: first user row with the given id, converted to
the pydantic User schema by from_orm; none when absent. -/
def userServiceGetById (db : List UserRow) (user_id : Int) :
    Option UserSchemaRec :=
  (db.find? (fun u => u.user_id == user_id)).map userSchemaFromOrm

/-- Outcome of get_current_user: an HTTPException the function raises, an
AttributeError escaping it (surfaced by the generic handler as HTTP 500),
or the returned user schema. -/
inductive AuthOutcome where
  | http : HttpErr → AuthOutcome
  | attributeFailure : String → AuthOutcome
  | currentUser : UserSchemaRec → AuthOutcome
  deriving DecidableEq, Repr

/-- get_current_user (app/core/auth.py): token extraction, JWT decode,
sub-claim check (a missing or empty sub is falsy), integer parse of sub
(int() is external, modelled by parseInt), then the lookup and active
check.  The lookup returns the pydantic User schema; when a user is
found, evaluating user.is_active resolves the attribute on the schema,
which defines no is_active field, so the check raises AttributeError.
The branch behind a successful attribute read mirrors the status mapping
from_orm performs; with the schema as written it is unreachable. -/
def getCurrentUser (jwtDecode : List Char → Option JwtPayload)
    (parseInt : String → Option Int) (db : List UserRow)
    (req : AuthHttpRequest) : AuthOutcome :=
  match getTokenFromHeader req with
  | Except.error e => AuthOutcome.http e
  | Except.ok token =>
    match decodeJwtToken jwtDecode token with
    | Except.error e => AuthOutcome.http e
    | Except.ok payload =>
      match payload.sub with
      | none => AuthOutcome.http tokenPayloadInvalid
      | some s =>
        if s = "" then AuthOutcome.http tokenPayloadInvalid
        else
          match parseInt s with
          | none => AuthOutcome.http tokenPayloadInvalid
          | some uid =>
            match userServiceGetById db uid with
            | none => AuthOutcome.http userNotActive
            | some user =>
              match pyAttr userSchemaFields "is_active" with
              | Except.error a => AuthOutcome.attributeFailure a
              | Except.ok _ =>
                if user.status == some "inactive" then
                  AuthOutcome.http userNotActive
                else AuthOutcome.currentUser user

/-- Hexadecimal digit character (lowercase), as bytes.hex() produces. -/
def hexDigitChar (n : Nat) : Char :=
  if n < 10 then Char.ofNat (48 + n) else Char.ofNat (87 + n)

/-- Value of a lowercase hexadecimal digit character, as bytes.fromhex
reads it. -/
def hexDigitVal (c : Char) : Nat :=
  if 97 ≤ c.toNat then c.toNat - 87 else c.toNat - 48

/-- Hex form of one byte, high digit first, as bytes.hex() renders it. -/
def byteToHex (b : Nat) : List Char :=
  [hexDigitChar (b / 16), hexDigitChar (b % 16)]

/-- bytes.hex(): concatenation of the two-digit hex forms. -/
def bytesToHex : List Nat → List Char
  | [] => []
  | b :: bs => byteToHex b ++ bytesToHex bs

/-- bytes.fromhex(): reads digit pairs back into bytes. -/
def hexToBytes : List Char → List Nat
  | a :: b :: rest => (hexDigitVal a * 16 + hexDigitVal b) :: hexToBytes rest
  | _ => []

/-- Python str.split on the colon separator: splits at every colon, with
empty parts kept, never returning an empty list of parts. -/
def splitOnColon : List Char → List (List Char)
  | [] => [[]]
  | c :: rest =>
    match splitOnColon rest with
    | [] => [[]]
    | h :: t => if c = ':' then [] :: h :: t else (c :: h) :: t

/-- hash_password (app/core/security.py): draws a random salt (here an
explicit argument, since os.urandom is an external collaborator), derives
the PBKDF2-HMAC-SHA256 digest (the external hashlib primitive, passed as
a function argument), and stores salt and digest in hex joined by a
colon. -/
def hashPassword (pbkdf2 : List Char → List Nat → List Nat)
    (password : List Char) (salt : List Nat) : List Char :=
  bytesToHex salt ++ ':' :: bytesToHex (pbkdf2 password salt)

/-- verify_password (app/core/security.py): splits the stored value on
the colon into salt and digest, recomputes the digest of the candidate
with the recovered salt, and compares the hex forms.  Python unpacks the
split into exactly two names and raises ValueError otherwise; that
failure is the none result. -/
def verifyPassword (pbkdf2 : List Char → List Nat → List Nat)
    (plain : List Char) (hashed : List Char) : Option Bool :=
  match splitOnColon hashed with
  | [salt, hash_val] =>
    some (bytesToHex (pbkdf2 plain (hexToBytes salt)) == hash_val)
  | _ => none

end UniLMS

namespace UniLMS

/-- Hex digits decode back to their value and are never the colon. -/
theorem hexDigitChar_spec (n : Nat) (h : n < 16) :
    hexDigitVal (hexDigitChar n) = n ∧ hexDigitChar n ≠ ':' := by
  interval_cases n <;> exact ⟨by decide, by decide⟩

/-- Decoding undoes encoding on byte lists whose entries are bytes. -/
theorem hexToBytes_bytesToHex (bs : List Nat) (h : ∀ b ∈ bs, b < 256) :
    hexToBytes (bytesToHex bs) = bs := by
  induction bs with
  | nil => rfl
  | cons b bs ih =>
    have hb : b < 256 := h b (List.mem_cons_self b bs)
    have h1 : b / 16 < 16 := by omega
    have h2 : b % 16 < 16 := Nat.mod_lt _ (by omega)
    show (hexDigitVal (hexDigitChar (b / 16)) * 16 +
        hexDigitVal (hexDigitChar (b % 16))) :: hexToBytes (bytesToHex bs)
      = b :: bs
    rw [(hexDigitChar_spec _ h1).1, (hexDigitChar_spec _ h2).1,
      ih (fun x hx => h x (List.mem_cons_of_mem b hx))]
    congr 1
    omega

/-- Hex encodings of byte lists never contain the colon character. -/
theorem colon_not_mem_bytesToHex (bs : List Nat) (h : ∀ b ∈ bs, b < 256) :
    ':' ∉ bytesToHex bs := by
  induction bs with
  | nil => simp [bytesToHex]
  | cons b bs ih =>
    have hb : b < 256 := h b (List.mem_cons_self b bs)
    have h1 : b / 16 < 16 := by omega
    have h2 : b % 16 < 16 := Nat.mod_lt _ (by omega)
    intro hmem
    simp only [bytesToHex, byteToHex, List.cons_append, List.nil_append,
      List.mem_cons] at hmem
    rcases hmem with hc | hc | hc
    · exact (hexDigitChar_spec _ h1).2 hc.symm
    · exact (hexDigitChar_spec _ h2).2 hc.symm
    · exact ih (fun x hx => h x (List.mem_cons_of_mem b hx)) hc

/-- Splitting a colon-free list yields that list as the only part. -/
theorem splitOnColon_no_colon (b : List Char) (hb : ':' ∉ b) :
    splitOnColon b = [b] := by
  induction b with
  | nil => rfl
  | cons c t ih =>
    have hc : c ≠ ':' := fun hc => hb (hc ▸ List.mem_cons_self c t)
    have ht : ':' ∉ t := fun hm => hb (List.mem_cons_of_mem c hm)
    simp only [splitOnColon, ih ht, if_neg hc]

/-- Splitting around a single colon with colon-free sides recovers the
two sides. -/
theorem splitOnColon_append (a b : List Char) (ha : ':' ∉ a)
    (hb : ':' ∉ b) : splitOnColon (a ++ ':' :: b) = [a, b] := by
  induction a with
  | nil =>
    simp [splitOnColon, splitOnColon_no_colon b hb]
  | cons c t ih =>
    have hc : c ≠ ':' := fun hc => ha (hc ▸ List.mem_cons_self c t)
    have ht : ':' ∉ t := fun hm => ha (List.mem_cons_of_mem c hm)
    simp [splitOnColon, ih ht, hc]

/-- C9: password hashing round-trips through verification.  For every
password and every salt drawn of byte values, verifying the password
against its own stored hash succeeds; and verifying any candidate whose
PBKDF2 digest under the stored salt differs from the password digest
fails.  The PBKDF2-HMAC-SHA256 primitive is the external hashlib
collaborator, passed as a function producing byte values. -/
theorem password_hash_roundtrip (pbkdf2 : List Char → List Nat → List Nat)
    (password q : List Char) (salt : List Nat)
    (hsalt : ∀ b ∈ salt, b < 256)
    (hdig : ∀ pw, ∀ b ∈ pbkdf2 pw salt, b < 256) :
    verifyPassword pbkdf2 password (hashPassword pbkdf2 password salt) =
      some true
    ∧ (pbkdf2 q salt ≠ pbkdf2 password salt →
      verifyPassword pbkdf2 q (hashPassword pbkdf2 password salt) =
        some false) := by
  have hsplit : splitOnColon (hashPassword pbkdf2 password salt) =
      [bytesToHex salt, bytesToHex (pbkdf2 password salt)] :=
    splitOnColon_append _ _ (colon_not_mem_bytesToHex salt hsalt)
      (colon_not_mem_bytesToHex _ (hdig password))
  have hrec : hexToBytes (bytesToHex salt) = salt :=
    hexToBytes_bytesToHex salt hsalt
  constructor
  · simp [verifyPassword, hsplit, hrec]
  · intro hne
    simp only [verifyPassword, hsplit, hrec, Option.some.injEq]
    rw [beq_eq_false_iff_ne]
    intro heq
    exact hne (by
      have := congrArg hexToBytes heq
      rwa [hexToBytes_bytesToHex _ (hdig q),
        hexToBytes_bytesToHex _ (hdig password)] at this)

/-- PBKDF2 stand-in for the witness: digest is the total length modulo
the byte range, enough to give the two candidate passwords different
digests. -/
def demoPbkdf2 : List Char → List Nat → List Nat :=
  fun pw salt => [(pw.length + salt.length) % 256]

/-- C9 witness: the round trip applied at a concrete password, candidate
and salt under the witness digest function. -/
theorem password_hash_roundtrip_witness :
    verifyPassword demoPbkdf2 ['a', 'b']
        (hashPassword demoPbkdf2 ['a', 'b'] [7, 250]) = some true
    ∧ verifyPassword demoPbkdf2 ['z']
        (hashPassword demoPbkdf2 ['a', 'b'] [7, 250]) = some false :=
  ⟨(password_hash_roundtrip demoPbkdf2 ['a', 'b'] ['z'] [7, 250]
      (by decide) (fun pw => by simp [demoPbkdf2]; omega)).1,
   (password_hash_roundtrip demoPbkdf2 ['a', 'b'] ['z'] [7, 250]
      (by decide) (fun pw => by simp [demoPbkdf2]; omega)).2 (by decide)⟩

end UniLMS

namespace UniLMS

/-- C2: every assessment-workflow endpoint invokes a service method that
the service class does not define, so the call raises AttributeError
before any business rule runs, and the store is unchanged. -/
theorem workflow_endpoints_raise_attribute_error
    {σ ρ : Type} (impl : String → σ → σ × ρ) (st : σ) (m : String) :
    (m ∈ assignmentSubmissionRouterCalls →
      routerInvoke assignmentSubmissionServiceMethods impl m st =
        (Except.error (PyError.attributeError m), st))
    ∧ (m ∈ quizAttemptRouterCalls →
      routerInvoke quizAttemptServiceMethods impl m st =
        (Except.error (PyError.attributeError m), st)) := by
  constructor
  · intro h
    fin_cases h <;> rfl
  · intro h
    fin_cases h <;> rfl

/-- C2 witness: the submit-assignment and start-attempt endpoints, on a
concrete store, raise AttributeError and leave the store unchanged. -/
theorem workflow_endpoints_raise_attribute_error_witness :
    routerInvoke assignmentSubmissionServiceMethods
        (fun _ (s : Nat) => (s, ())) "submit_assignment" 0 =
      (Except.error (PyError.attributeError "submit_assignment"), 0)
    ∧ routerInvoke quizAttemptServiceMethods
        (fun _ (s : Nat) => (s, ())) "start_attempt" 0 =
      (Except.error (PyError.attributeError "start_attempt"), 0) :=
  ⟨(workflow_endpoints_raise_attribute_error
      (fun _ (s : Nat) => (s, ())) 0 "submit_assignment").1 (by decide),
   (workflow_endpoints_raise_attribute_error
      (fun _ (s : Nat) => (s, ())) 0 "start_attempt").2 (by decide)⟩

/-- C1 evaluated on the code: a submit performed through
AssignmentSubmissionService.create raises TypeError on the schema keyword
filename (which is not a mapped attribute of the model), so two submits
in succession insert nothing, leave the store unchanged, and leave the
count of rows for every (assignment, student) pair unchanged — in
particular they do not leave exactly one record with the latest payload,
and no upsert-by-pair exists. -/
theorem submission_upsert_broken (db : List AssignmentSubmissionRow)
    (x y : AssignmentSubmissionCreate) :
    (assignmentSubmissionServiceCreate db x).1 =
      some (PyError.typeError "filename")
    ∧ (assignmentSubmissionServiceCreate
        (assignmentSubmissionServiceCreate db x).2 y).2 = db
    ∧ (∀ aid sid,
        submissionCountForPair
          (assignmentSubmissionServiceCreate
            (assignmentSubmissionServiceCreate db x).2 y).2 aid sid =
          submissionCountForPair db aid sid) :=
  ⟨rfl, rfl, fun _ _ => rfl⟩

/-- C3 evaluated on the code: starting an attempt through the endpoint
raises AttributeError (QuizAttemptService defines no start_attempt), and
a start performed through QuizAttemptService.create raises TypeError on
the schema keyword start_time; in every store — including one that
already holds an in-progress attempt for the pair — no ConflictError is
raised (no such class exists in the repository) and no attempt row is
created. -/
theorem start_attempt_conflict_unenforced
    {σ ρ : Type} (impl : String → σ → σ × ρ) (st : σ)
    (db : List QuizAttemptRow) (x : QuizAttemptCreate) :
    routerInvoke quizAttemptServiceMethods impl "start_attempt" st =
      (Except.error (PyError.attributeError "start_attempt"), st)
    ∧ (quizAttemptServiceCreate db x).1 =
        some (PyError.typeError "start_time")
    ∧ (quizAttemptServiceCreate db x).2 = db
    ∧ (quizAttemptServiceCreate [inProgressAttempt] secondStartPayload).2 =
        [inProgressAttempt] :=
  ⟨rfl, rfl, rfl, rfl⟩

/-- C4 evaluated on the code: submitting an assignment never consults any
due date.  The endpoint raises AttributeError for every request (on time
or late), and AssignmentSubmissionService.create raises TypeError on the
schema keyword filename for every store and payload, leaving the store
unchanged; no DeadlineExceededError class exists in the repository, so an
on-time submit never succeeds and a late submit is never rejected with a
deadline error. -/
theorem submit_deadline_unenforced
    {σ ρ : Type} (impl : String → σ → σ × ρ) (st : σ)
    (db : List AssignmentSubmissionRow) (x : AssignmentSubmissionCreate) :
    routerInvoke assignmentSubmissionServiceMethods impl
        "submit_assignment" st =
      (Except.error (PyError.attributeError "submit_assignment"), st)
    ∧ (assignmentSubmissionServiceCreate db x).1 =
        some (PyError.typeError "filename")
    ∧ (assignmentSubmissionServiceCreate db x).2 = db :=
  ⟨rfl, rfl, rfl⟩

/-- C5 evaluated on the code: submitting an attempt never scores it.  The
patch endpoint raises AttributeError (QuizAttemptService defines no
update_attempt); and QuizAttemptService.update can never change
total_score, is_graded, is_submitted or submitted_at, because no field of
the update schema maps to those columns — the returned row always carries
the stored values.  On the Scenario-B input (in-progress attempt, update
marking it completed with score 30) the row keeps total_score none and
is_graded false instead of total score 30 and graded true. -/
theorem submit_attempt_never_scores (db : List QuizAttemptRow) (id : Nat)
    (u : QuizAttemptUpdate) {σ ρ : Type} (impl : String → σ → σ × ρ)
    (st : σ) :
    routerInvoke quizAttemptServiceMethods impl "update_attempt" st =
      (Except.error (PyError.attributeError "update_attempt"), st)
    ∧ (∀ r2, (quizAttemptServiceUpdate db id u).1 = some r2 →
        ∃ r, r ∈ db ∧ r2.total_score = r.total_score
          ∧ r2.is_graded = r.is_graded
          ∧ r2.is_submitted = r.is_submitted
          ∧ r2.submitted_at = r.submitted_at)
    ∧ ((quizAttemptServiceUpdate [inProgressAttempt] 1
          submitAttemptPayload).1.map
        (fun r => (r.total_score, r.is_graded))) = some (none, false) := by
  refine ⟨rfl, ?_, rfl⟩
  intro r2 h
  unfold quizAttemptServiceUpdate at h
  cases hf : db.find? (fun r => r.attempt_id == id) with
  | none => rw [hf] at h; exact absurd h (by simp)
  | some r =>
    rw [hf] at h
    simp only [Option.some.injEq] at h
    refine ⟨r, List.mem_of_find?_eq_some hf, ?_, ?_, ?_, ?_⟩ <;>
      simp [← h, quizAttemptApplyUpdate]

/-- C5 witness: the general preservation statement applied at the
Scenario-B store. -/
theorem submit_attempt_never_scores_witness :
    ∃ r, r ∈ [inProgressAttempt]
      ∧ inProgressAttempt.total_score = r.total_score
      ∧ inProgressAttempt.is_graded = r.is_graded
      ∧ inProgressAttempt.is_submitted = r.is_submitted
      ∧ inProgressAttempt.submitted_at = r.submitted_at :=
  (submit_attempt_never_scores [inProgressAttempt] 1 submitAttemptPayload
    (fun _ (s : Nat) => (s, ())) 0).2.1 inProgressAttempt rfl

/-- C6 evaluated on the code: recording a grade is not an upsert and
never succeeds.  The add_feedback endpoint raises AttributeError
(AssignmentSubmissionService defines no add_feedback), and
GradeService.create raises TypeError on the schema keyword value (the
Grade model column is grade_value), leaving the store unchanged; calling
it twice with the same grade payload leaves zero rows for the
(student, source) pair, not one row with the final values, and no
uniqueness constraint or update-in-place path exists. -/
theorem grade_upsert_broken
    {σ ρ : Type} (impl : String → σ → σ × ρ) (st : σ)
    (db : List GradeRow) (x y : GradeCreate) :
    routerInvoke assignmentSubmissionServiceMethods impl "add_feedback" st =
      (Except.error (PyError.attributeError "add_feedback"), st)
    ∧ (gradeServiceCreate db x).1 = some (PyError.typeError "value")
    ∧ (gradeServiceCreate (gradeServiceCreate db x).2 y).2 = db
    ∧ gradeCountForPair
        (gradeServiceCreate
          (gradeServiceCreate [] feedbackGradePayload).2
          feedbackGradePayload).2 5 (some 1) = 0 :=
  ⟨rfl, rfl, rfl, rfl⟩

/-- C7 evaluated on the code: the Quiz model has no status, published or
is_published attribute, so a Draft-versus-Published state does not exist
and publication can never gate visibility; QuizService.get_by_id takes no
actor and returns any stored quiz to any caller (here the never
publishable quiz 1); and the student-facing read route calls the
undefined QuizService.get_quiz_by_id, raising AttributeError. -/
theorem unpublished_quiz_not_hidden
    {σ ρ : Type} (impl : String → σ → σ × ρ) (st : σ) :
    ¬ ("status" ∈ quizModelAttrs)
    ∧ ¬ ("published" ∈ quizModelAttrs)
    ∧ ¬ ("is_published" ∈ quizModelAttrs)
    ∧ quizServiceGetById [draftQuiz] 1 = some draftQuiz
    ∧ routerInvoke quizServiceMethods impl "get_quiz_by_id" st =
        (Except.error (PyError.attributeError "get_quiz_by_id"), st) :=
  ⟨by decide, by decide, by decide, rfl, rfl⟩

/-- User whose role is the administrator role, so User.is_admin holds. -/
def administratorUser : UserRow :=
  { user_id := 1, username := "root", is_active := true,
    role := some { name := "administrator" } }

/-- User with no role at all (role_id is nullable). -/
def roleLessUser : UserRow :=
  { user_id := 2, username := "ghost", is_active := true, role := none }

/-- C8 counterexample: an actor whose role is Admin is not always
allowed — the require_role dependency for the professor role denies a
user that User.is_admin classifies as an admin, because the check only
tests membership of the literal role name in the required list and has no
admin precedence rule. -/
theorem admin_not_always_allowed :
    userIsAdmin administratorUser = true
    ∧ requireRole ["professor"] administratorUser =
        Except.error
          { status := 403, detail := "User lacks required role(s)" } :=
  ⟨rfl, rfl⟩

/-- C8 amended: require_role grants access exactly when the user has a
role whose name is (case-sensitively) a member of the required list;
there is no admin precedence rule, and a user matching no rule — in
particular a user with no role at all — is denied with HTTP 403. -/
theorem require_role_first_match_semantics (required : List String)
    (u : UserRow) :
    (requireRole required u = Except.ok u ↔
      ∃ r, u.role = some r ∧ r.name ∈ required)
    ∧ (u.role = none →
      requireRole required u =
        Except.error
          { status := 403, detail := "User lacks required role(s)" }) := by
  constructor
  · cases hr : u.role with
    | none => simp [requireRole, hr]
    | some r =>
      simp only [requireRole, hr]
      constructor
      · intro h
        refine ⟨r, rfl, ?_⟩
        by_contra hmem
        rw [if_neg ?_] at h
        · exact Except.noConfusion h
        · simp only [List.any_eq_true, not_exists, not_and]
          intro a ha
          simp only [List.contains_cons, List.contains_nil, Bool.or_false]
          intro hbeq
          exact hmem (by rwa [eq_of_beq hbeq] at ha)
      · rintro ⟨r2, hr2, hmem⟩
        obtain rfl : r = r2 := by injection hr2
        rw [if_pos]
        simp only [List.any_eq_true]
        exact ⟨r.name, hmem, by simp [List.contains_cons]⟩
  · intro hr
    simp [requireRole, hr]

/-- C8 witness: the amended semantics applied to a concrete user with no
role, who is denied. -/
theorem require_role_first_match_semantics_witness :
    requireRole ["admin"] roleLessUser =
      Except.error { status := 403, detail := "User lacks required role(s)" } :=
  (require_role_first_match_semantics ["admin"] roleLessUser).2 rfl

/-- Every HTTPException getCurrentUser raises is one of the four
constants of the source, in particular of status 401 or 403. -/
theorem getCurrentUser_http_cases (jwtDecode : List Char → Option JwtPayload)
    (parseInt : String → Option Int) (db : List UserRow)
    (req : AuthHttpRequest) (e : HttpErr)
    (he : getCurrentUser jwtDecode parseInt db req = AuthOutcome.http e) :
    e = headerInvalid ∨ e = credentialsInvalid ∨ e = tokenPayloadInvalid
    ∨ e = userNotActive := by
  unfold getCurrentUser at he
  rw [show pyAttr userSchemaFields "is_active" =
      Except.error "is_active" from rfl] at he
  repeat' split at he
  all_goals
    first
    | exact AuthOutcome.noConfusion he
    | · rename_i heq
        injection he with he
        subst he
        unfold getTokenFromHeader at heq
        repeat' split at heq
        all_goals
          first
          | exact Except.noConfusion heq
          | (injection heq with heq; subst heq; tauto)
    | · rename_i heq
        injection he with he
        subst he
        unfold decodeJwtToken at heq
        repeat' split at heq
        all_goals
          first
          | exact Except.noConfusion heq
          | (injection heq with heq; subst heq; tauto)
    | (injection he with he; subst he; tauto)

/-- getCurrentUser never reaches its return: for every input the found
user branch raises AttributeError on is_active before the user schema
could be returned. -/
theorem getCurrentUser_no_return (jwtDecode : List Char → Option JwtPayload)
    (parseInt : String → Option Int) (db : List UserRow)
    (req : AuthHttpRequest) (u : UserSchemaRec)
    (hu : getCurrentUser jwtDecode parseInt db req =
      AuthOutcome.currentUser u) : False := by
  unfold getCurrentUser at hu
  rw [show pyAttr userSchemaFields "is_active" =
      Except.error "is_active" from rfl] at hu
  repeat' split at hu
  all_goals
    first
    | exact AuthOutcome.noConfusion hu
    | · rename_i heq hif
        exact Except.noConfusion heq

/-- Empty headers never pass the Bearer prefix test. -/
theorem hasPrefix_bearer_ne_nil (h : List Char)
    (hp : hasPrefixChars bearerPrefix h = true) : h.isEmpty = false := by
  cases h with
  | nil => simp [bearerPrefix, hasPrefixChars] at hp
  | cons c t => rfl

/-- C10 amended: getCurrentUser is total with the error partition the
code actually exhibits: every HTTPException it raises is a 401 or 403; a
missing or non-Bearer Authorization header, a JWT that fails to decode,
and a sub claim that is absent, empty or unparseable each give 401; a
referenced user that does not exist gives 403; and whenever the user does
exist — active or inactive — the active check reads is_active on the
pydantic User schema, which defines no such field, so AttributeError
escapes (surfaced as an unhandled 500) and the function never returns a
user. -/
theorem getCurrentUser_actual_partition
    (jwtDecode : List Char → Option JwtPayload)
    (parseInt : String → Option Int) (db : List UserRow)
    (req : AuthHttpRequest) :
    ¬ ("is_active" ∈ userSchemaFields)
    ∧ (∀ e, getCurrentUser jwtDecode parseInt db req = AuthOutcome.http e →
      e.status = 401 ∨ e.status = 403)
    ∧ (∀ u, getCurrentUser jwtDecode parseInt db req ≠
        AuthOutcome.currentUser u)
    ∧ ((∀ h, req.authorization = some h →
          hasPrefixChars bearerPrefix h = false) →
        getCurrentUser jwtDecode parseInt db req =
          AuthOutcome.http headerInvalid)
    ∧ (∀ h, req.authorization = some h →
        hasPrefixChars bearerPrefix h = true →
        jwtDecode (afterFirstSpace h) = none →
        getCurrentUser jwtDecode parseInt db req =
          AuthOutcome.http credentialsInvalid)
    ∧ (∀ h p, req.authorization = some h →
        hasPrefixChars bearerPrefix h = true →
        jwtDecode (afterFirstSpace h) = some p →
        (p.sub = none ∨ p.sub = some "" ∨
          ∃ s, p.sub = some s ∧ parseInt s = none) →
        getCurrentUser jwtDecode parseInt db req =
          AuthOutcome.http tokenPayloadInvalid)
    ∧ (∀ h p s uid, req.authorization = some h →
        hasPrefixChars bearerPrefix h = true →
        jwtDecode (afterFirstSpace h) = some p →
        p.sub = some s → s ≠ "" → parseInt s = some uid →
        userServiceGetById db uid = none →
        getCurrentUser jwtDecode parseInt db req =
          AuthOutcome.http userNotActive)
    ∧ (∀ h p s uid u, req.authorization = some h →
        hasPrefixChars bearerPrefix h = true →
        jwtDecode (afterFirstSpace h) = some p →
        p.sub = some s → s ≠ "" → parseInt s = some uid →
        userServiceGetById db uid = some u →
        getCurrentUser jwtDecode parseInt db req =
          AuthOutcome.attributeFailure "is_active") := by
  have hpa : pyAttr userSchemaFields "is_active" =
      Except.error "is_active" := rfl
  refine ⟨by decide, ?_, ?_, ?_, ?_, ?_, ?_, ?_⟩
  · intro e he
    rcases getCurrentUser_http_cases jwtDecode parseInt db req e he with
      rfl | rfl | rfl | rfl
    · exact Or.inl rfl
    · exact Or.inl rfl
    · exact Or.inl rfl
    · exact Or.inr rfl
  · intro u hu
    exact getCurrentUser_no_return jwtDecode parseInt db req u hu
  · intro hbad
    cases ha : req.authorization with
    | none => simp [getCurrentUser, getTokenFromHeader, ha]
    | some h =>
      simp [getCurrentUser, getTokenFromHeader, ha, hbad h ha]
  · intro h ha hpre hjd
    simp [getCurrentUser, getTokenFromHeader, ha,
      hasPrefix_bearer_ne_nil h hpre, hpre, decodeJwtToken, hjd]
  · intro h p ha hpre hjd hsub
    rcases hsub with hs | hs | ⟨s, hs, hps⟩
    · simp [getCurrentUser, getTokenFromHeader, ha,
        hasPrefix_bearer_ne_nil h hpre, hpre, decodeJwtToken, hjd, hs]
    · simp [getCurrentUser, getTokenFromHeader, ha,
        hasPrefix_bearer_ne_nil h hpre, hpre, decodeJwtToken, hjd, hs]
    · simp [getCurrentUser, getTokenFromHeader, ha,
        hasPrefix_bearer_ne_nil h hpre, hpre, decodeJwtToken, hjd, hs, hps]
  · intro h p s uid ha hpre hjd hs hne hps hu
    simp [getCurrentUser, getTokenFromHeader, ha,
      hasPrefix_bearer_ne_nil h hpre, hpre, decodeJwtToken, hjd, hs, hne,
      hps, hu]
  · intro h p s uid u ha hpre hjd hs hne hps hu
    simp [getCurrentUser, getTokenFromHeader, ha,
      hasPrefix_bearer_ne_nil h hpre, hpre, decodeJwtToken, hjd, hs, hne,
      hps, hu, hpa]

/-- Active student row for the authentication theorems. -/
def demoStudentRow : UserRow :=
  { user_id := 7, username := "eve", is_active := true,
    role := some { name := "student" } }

/-- JWT decoder accepting one token with sub seven, used only to
instantiate the external decode collaborator. -/
def demoJwtDecode : List Char → Option JwtPayload :=
  fun t => if t == ['t', 'k'] then some { sub := some "7" } else none

/-- Integer parser accepting the demo sub claim, used only to instantiate
the external int() collaborator. -/
def demoParseInt : String → Option Int :=
  fun s => if s == "7" then some 7 else none

/-- Request carrying the Bearer header for the demo token. -/
def demoAuthReq : AuthHttpRequest :=
  { authorization := some (bearerPrefix ++ ['t', 'k']) }

/-- C10 counterexample: on a request whose header, token, sub claim and
lookup all succeed for an existing, active user, getCurrentUser does not
return the user and does not raise a 401 or 403 — the active check raises
AttributeError on is_active, which the pydantic User schema does not
define; so the claimed 403-on-inactive and return-on-success behaviour
never occurs for existing users. -/
theorem getCurrentUser_crashes_on_existing_user :
    demoStudentRow.is_active = true
    ∧ getCurrentUser demoJwtDecode demoParseInt [demoStudentRow]
        demoAuthReq = AuthOutcome.attributeFailure "is_active" :=
  ⟨rfl, rfl⟩

/-- C10 witness: the amended partition applied at a concrete request with
a valid Bearer token for an existing user (AttributeError outcome) and at
a request with the header absent (401 outcome). -/
theorem getCurrentUser_actual_partition_witness :
    getCurrentUser demoJwtDecode demoParseInt [demoStudentRow]
        demoAuthReq = AuthOutcome.attributeFailure "is_active"
    ∧ getCurrentUser demoJwtDecode demoParseInt [demoStudentRow]
        { authorization := none } = AuthOutcome.http headerInvalid :=
  ⟨(getCurrentUser_actual_partition demoJwtDecode demoParseInt
        [demoStudentRow] demoAuthReq).2.2.2.2.2.2.2
      (bearerPrefix ++ ['t', 'k']) { sub := some "7" } "7" 7
      (userSchemaFromOrm demoStudentRow) rfl (by decide) rfl rfl
      (by decide) rfl rfl,
   (getCurrentUser_actual_partition demoJwtDecode demoParseInt
        [demoStudentRow] { authorization := none }).2.2.2.1
      (fun h hh => Option.noConfusion hh)⟩

end UniLMS
